import Mathlib

/-!
Shallow embedding of `errbot/plugin_manager.py` (class `BotPluginManager`
plus module-level helpers), restricted to the operations the claims need:
`activate_plugin_with_version_check`, `activate_plugin`, `add_plugin_repo`,
`install_repo`, `blacklist_plugin`, `unblacklist_plugin`.

External collaborators (the yapsy host framework hooks, the plugin object
hooks `check_configuration` / `configure` / `activate` / `deactivate`,
`route`, `which`, the git subprocess) are modelled as oracle fields carried
by the plugin object or an environment record: each records the outcome the
collaborator would produce for the single call under analysis (`none` =
succeeds, `some msg` = raises an exception with message `msg`).

Python module globals `PY2`/`PY3` (complementary booleans) and `VERSION`
(the host framework version string) become explicit parameters `py3` and
`hostVersion`.
-/

namespace PluginMgr

/-- Plugin configurations are opaque structured values; their internal shape
never matters to the manager, so we represent them abstractly. -/
abbrev Config := String

/-- Exceptions the manager raises or propagates.  `incompatiblePlugin` is
`IncompatiblePluginException`, `pluginConfiguration` is
`PluginConfigurationException`; `other` is any exception escaping an
external hook that the manager re-raises. -/
inductive Exc where
  | incompatiblePlugin (msg : String)
  | pluginConfiguration (msg : String)
  | other (msg : String)
deriving DecidableEq, Repr

/-- The live plugin object (`pta_item.plugin_object`): its declared version
bounds, its configuration-related surface, its stored `config` attribute,
and oracles for the outcome of each external hook invoked on it. -/
structure PluginObject where
  minErrVersion : Option String
  maxErrVersion : Option String
  /-- result of `obj.get_configuration_template()` (`none` = Python `None`). -/
  configurationTemplate : Option String
  /-- the `obj.config` attribute. -/
  config : Option Config
  /-- oracle: `obj.check_configuration(config)`; `some msg` = raises. -/
  checkConfigurationResult : Option String
  /-- oracle: `obj.configure(config)`; `some msg` = raises. -/
  configureResult : Option String
  /-- oracle: the plugin `activate` hook run by yapsy `activatePluginByName`. -/
  activateResult : Option String
  /-- oracle: `route(obj)` registering command handlers with the dispatcher. -/
  routeResult : Option String
  /-- oracle: the plugin `deactivate` hook run by yapsy `deactivatePluginByName`. -/
  deactivateResult : Option String
deriving DecidableEq, Repr

/-- A yapsy registry entry (`PluginInfo`): name, filesystem path, the
`[Python] Version` descriptor value (`none` models `NoSectionError`), the
live object and the `activated` flag. -/
structure PluginItem where
  name : String
  path : String
  pythonVersion : Option String
  obj : PluginObject
  activated : Bool
deriving DecidableEq, Repr

/-- Observable manager state: the yapsy plugin registry, the template paths
registered with the host, the names registered with the message router, and
the three persisted store tables (`repos`, `configs`, `bl_plugins`). -/
structure MgrState where
  plugins : List PluginItem
  templatePaths : List String
  routed : List String
  repos : List (String × String)
  configs : List (String × Option Config)
  blPlugins : List String
deriving DecidableEq, Repr

/-- Method `self.getPluginByName(name, "bots")`: look the name up in the registry. -/
def getPluginByName (plugins : List PluginItem) (name : String) : Option PluginItem :=
  plugins.find? (fun p => p.name == name)

/-- Apply `f` to the registry entry (entries) called `name`, used to model
attribute assignment on the item yapsy holds. -/
def updatePlugin (plugins : List PluginItem) (name : String)
    (f : PluginItem → PluginItem) : List PluginItem :=
  plugins.map (fun p => if p.name == name then f p else p)

/-- Modelled from the spec: `add_plugin_templates_path` lives in
`errbot/templating.py`, which is not under `src/`.  The spec says template
paths are registered with the host and add/remove are called in matching
pairs, so registration records the path (once). -/
def add_plugin_templates_path (paths : List String) (path : String) : List String :=
  if path ∈ paths then paths else paths ++ [path]

/-- Modelled from the spec: `remove_plugin_templates_path` lives in
`errbot/templating.py`, not under `src/`.  The spec says unregistration is
idempotent if the path was not yet registered. -/
def remove_plugin_templates_path (paths : List String) (path : String) : List String :=
  paths.filter (fun p => p ≠ path)

/-- Split a character list at every occurrence of `sep`, Python
`str.split` style (the empty list yields one empty component). -/
def splitChar (sep : Char) : List Char → List (List Char)
  | [] => [[]]
  | c :: cs =>
    match splitChar sep cs with
    | [] => [[c]]
    | h :: t => if c = sep then [] :: h :: t else (c :: h) :: t

/-- Python `str.endswith`, on character lists so that it evaluates inside
the kernel. -/
def endsWithChars (s t : List Char) : Bool :=
  t.length ≤ s.length && s.drop (s.length - t.length) == t

/-- String form of `endsWithChars`. -/
def strEndsWith (s t : String) : Bool :=
  endsWithChars s.data t.data

/-- Python `int(s)` on a decimal digit string, `none` on anything else. -/
def parseNat (cs : List Char) : Option Nat :=
  match cs with
  | [] => none
  | _ => cs.foldl
      (fun acc c =>
        match acc with
        | none => none
        | some a => if 48 ≤ c.toNat ∧ c.toNat ≤ 57 then some (a * 10 + (c.toNat - 48)) else none)
      (some 0)

/-- Modelled from the spec: `version2array` lives in `errbot/utils.py`, not
under `src/`.  Dotted version strings are parsed component-wise into integer
arrays. -/
def version2array (v : String) : List Nat :=
  (splitChar '.' v.data).map (fun cs => (parseNat cs).getD 0)

/-- Lexicographic strict order on equal-length integer arrays. -/
def lexLt : List Nat → List Nat → Bool
  | [], [] => false
  | [], _ :: _ => true
  | _ :: _, [] => false
  | a :: as, b :: bs => a < b || (a == b && lexLt as bs)

/-- Pad an integer array with trailing zeros up to length `n`. -/
def padZeros (n : Nat) (l : List Nat) : List Nat :=
  l ++ List.replicate (n - l.length) 0

/-- Modelled from the spec: version arrays are compared component-wise with
shorter arrays comparing as if zero-padded. -/
def verLt (a b : List Nat) : Bool :=
  lexLt (padZeros (max a.length b.length) a) (padZeros (max a.length b.length) b)

/-- Version-array greater-than. -/
def verGt (a b : List Nat) : Bool := verLt b a

/-- Python truthiness of an optional string attribute (`None` and `""` are
falsy), used for `if min_version and ...`. -/
def truthy : Option String → Bool
  | none => false
  | some s => s ≠ ""

/-- Result of `activate_plugin_with_version_check`: the returned object, a
plain `return None`, or a raised exception. -/
inductive ActResult where
  | ok (obj : PluginObject)
  | retNone
  | exc (e : Exc)
deriving DecidableEq, Repr

/-- The interpreter-version gate (plugin_manager.py lines 146-174): the
descriptor value (after the `NoSectionError` default of `"2"`) must be one
of `"2"`, `"2+"`, `"3"`, and must not exclude the running interpreter major
version; each failing check makes the function `return None` after logging. -/
def pythonGate (py3 : Bool) (pv : String) : Option ActResult :=
  if !(pv == "2" || pv == "2+" || pv == "3") then some ActResult.retNone
  else if pv == "2" && py3 then some ActResult.retNone
  else if pv == "3" && !py3 then some ActResult.retNone
  else none

/-- The min-version incompatibility message (line 181-184). -/
def minVersionMsg (name minv ver : String) : String :=
  "The plugin " ++ name ++ " asks for err with a minimal version of " ++ minv ++
    " while err is version " ++ ver

/-- The max-version incompatibility message (line 186-190). -/
def maxVersionMsg (name maxv ver : String) : String :=
  "The plugin " ++ name ++ " asks for err with a maximal version of " ++ maxv ++
    " while err is version " ++ ver

/-- The host-framework version gate (lines 176-190): `some msg` means
`raise IncompatiblePluginException(msg)`. -/
def versionGate (name hostVersion : String) (obj : PluginObject) : Option String :=
  let current := version2array hostVersion
  if truthy obj.minErrVersion &&
      verGt (version2array (obj.minErrVersion.getD "")) current then
    some (minVersionMsg name (obj.minErrVersion.getD "") hostVersion)
  else if truthy obj.maxErrVersion &&
      verLt (version2array (obj.maxErrVersion.getD "")) current then
    some (maxVersionMsg name (obj.maxErrVersion.getD "") hostVersion)
  else none

/-- The configuration step (lines 192-197): run `obj.check_configuration`
only when a template and a configuration are both present, then always run
`obj.configure`; `.error msg` is the first exception raised. -/
def configStep (obj : PluginObject) (config : Option Config) : Except String Unit :=
  match (if obj.configurationTemplate.isSome && config.isSome
         then obj.checkConfigurationResult else none) with
  | some msg => Except.error msg
  | none =>
    match obj.configureResult with
    | some msg => Except.error msg
    | none => Except.ok ()

/-- Assignment `pta_item.activated = b` modelled on the registry. -/
def setActivated (st : MgrState) (name : String) (b : Bool) : MgrState :=
  { st with plugins := updatePlugin st.plugins name (fun p => { p with activated := b }) }

/-- Assignment `obj.config = None` (line 200) modelled on the registry entry. -/
def clearConfig (st : MgrState) (name : String) : MgrState :=
  { st with plugins := updatePlugin st.plugins name (fun p => { p with obj := { p.obj with config := none } }) }

/-- The `except` block of lines 208-213: reset the `activated` flag,
unregister the template path, call yapsy `deactivatePluginByName` (which
runs the plugin deactivate hook and marks it deactivated), then re-raise
the original error.  If the deactivate hook itself raises, that exception
propagates instead of the original. -/
def activationRollback (name path origMsg : String) (deactivateResult : Option String)
    (st : MgrState) : ActResult × MgrState :=
  let stA := setActivated st name false
  let stB := { stA with templatePaths := remove_plugin_templates_path stA.templatePaths path }
  match deactivateResult with
  | some msg2 => (ActResult.exc (Exc.other msg2), stB)
  | none => (ActResult.exc (Exc.other origMsg), setActivated stB name false)

/-- Method `BotPluginManager.activate_plugin_with_version_check` (lines 140-213).
`populate_doc` (line 203) only copies a docstring onto the plugin class and
touches no state the spec speaks about, so it is not modelled. -/
def activate_plugin_with_version_check (py3 : Bool) (hostVersion : String)
    (name : String) (config : Option Config) (st : MgrState) : ActResult × MgrState :=
  match getPluginByName st.plugins name with
  | none => (ActResult.retNone, st)
  | some item =>
    let pv := item.pythonVersion.getD "2"
    match pythonGate py3 pv with
    | some r => (r, st)
    | none =>
      match versionGate name hostVersion item.obj with
      | some msg => (ActResult.exc (Exc.incompatiblePlugin msg), st)
      | none =>
        match configStep item.obj config with
        | Except.error msg =>
          (ActResult.exc (Exc.pluginConfiguration msg), clearConfig st name)
        | Except.ok _ =>
          let st1 := { st with templatePaths := add_plugin_templates_path st.templatePaths item.path }
          let st2 := setActivated st1 name true
          match item.obj.activateResult with
          | some msg => activationRollback name item.path msg item.obj.deactivateResult st2
          | none =>
            match item.obj.routeResult with
            | some msg => activationRollback name item.path msg item.obj.deactivateResult st2
            | none => (ActResult.ok item.obj, { st2 with routed := st2.routed ++ [name] })

/-- Method `get_all_active_plugin_names` (lines 282-283). -/
def get_all_active_plugin_names (st : MgrState) : List String :=
  (st.plugins.filter (fun p => p.activated)).map (fun p => p.name)

/-- Method `get_all_plugin_names` (lines 285-286). -/
def get_all_plugin_names (st : MgrState) : List String :=
  st.plugins.map (fun p => p.name)

/-- Association-list lookup standing in for Python dict indexing. -/
def lookupAssoc {α : Type} (l : List (String × α)) (k : String) : Option α :=
  (l.find? (fun kv => kv.fst == k)).map (fun kv => kv.snd)

/-- Python dict assignment `d[k] = v`: replace the binding when the key
exists, append it otherwise.  Dict keys are unique, so replacing the first
binding is exactly dict assignment. -/
def setAssoc {α : Type} : List (String × α) → String → α → List (String × α)
  | [], k, v => [(k, v)]
  | kv :: t, k, v => if kv.fst == k then (k, v) :: t else kv :: setAssoc t k v

/-- Method `get_plugin_configuration` (lines 330-334): `configs.get(name)` with an
explicit `None` for an absent entry. -/
def get_plugin_configuration (st : MgrState) (name : String) : Option Config :=
  match lookupAssoc st.configs name with
  | none => none
  | some c => c

/-- Method `get_installed_plugin_repos` (lines 293-294). -/
def get_installed_plugin_repos (st : MgrState) : List (String × String) :=
  st.repos

/-- Method `add_plugin_repo` (lines 296-302): unconditionally store the mapping,
overwriting any existing entry of the same name. -/
def add_plugin_repo (st : MgrState) (name url : String) : MgrState :=
  { st with repos := setAssoc (get_installed_plugin_repos st) name url }

/-- Method `is_plugin_blacklisted` (lines 308-309). -/
def is_plugin_blacklisted (st : MgrState) (name : String) : Bool :=
  name ∈ st.blPlugins

/-- Method `blacklist_plugin` (lines 311-317): already-blacklisted names get the
status string back with no mutation; otherwise the name is appended to the
persisted list. -/
def blacklist_plugin (st : MgrState) (name : String) : String × MgrState :=
  if is_plugin_blacklisted st name then
    ("Plugin " ++ name ++ " is already blacklisted", st)
  else
    ("Plugin " ++ name ++ " is now blacklisted", { st with blPlugins := st.blPlugins ++ [name] })

/-- Method `unblacklist_plugin` (lines 319-327): non-blacklisted names get the
status string back with no mutation; otherwise `l.remove(name)` deletes the
first occurrence and the list is stored back. -/
def unblacklist_plugin (st : MgrState) (name : String) : String × MgrState :=
  if !is_plugin_blacklisted st name then
    ("Plugin " ++ name ++ " is not blacklisted", st)
  else
    ("Plugin " ++ name ++ " removed from blacklist", { st with blPlugins := st.blPlugins.erase name })

/-- Result of `activate_plugin`: the returned status string, or an
exception escaping the parts outside its `try` block. -/
inductive ActivateStr where
  | ret (s : String)
  | exc (e : Exc)
deriving DecidableEq, Repr

/-- Render an exception the way Python percent-interpolation of the caught exception does. -/
def excMsg : Exc → String
  | Exc.incompatiblePlugin m => m
  | Exc.pluginConfiguration m => m
  | Exc.other m => m

/-- Method `activate_plugin` (lines 369-380): an already-active name returns the
fixed status immediately; an unknown name returns the unknown-plugin
message; otherwise `activate_plugin_with_version_check` runs with the
persisted configuration, exceptions become a failure string, and on the
non-raising path `callback_connect` (a hook on the live object, outside the
`try`) runs before the success string is returned.  `callbackConnect` is
the oracle for that hook. -/
def activate_plugin (py3 : Bool) (hostVersion : String) (callbackConnect : Option String)
    (name : String) (st : MgrState) : ActivateStr × MgrState :=
  if name ∈ get_all_active_plugin_names st then
    (ActivateStr.ret "Plugin already in active list", st)
  else if !(name ∈ get_all_plugin_names st) then
    (ActivateStr.ret ("I do not know this " ++ name ++ " plugin"), st)
  else
    match activate_plugin_with_version_check py3 hostVersion name (get_plugin_configuration st name) st with
    | (ActResult.exc e, st') =>
      (ActivateStr.ret (name ++ " failed to start : " ++ excMsg e ++ "\n"), st')
    | (_, st') =>
      match callbackConnect with
      | some msg => (ActivateStr.exc (Exc.other msg), st')
      | none => (ActivateStr.ret ("Plugin " ++ name ++ " activated"), st')

/-- Environment of `install_repo`: the known-public-repos alias table (from
`errbot/repos.py`, not under `src/`, used only as an opaque name-to-url
map), the result of `which("git")`, and oracles for the clone subprocess
and the closing re-scan. -/
structure InstallEnv where
  knownRepos : List (String × String)
  gitPath : Option String
  cloneExit : Nat
  cloneStdout : String
  cloneStderr : String
  scanErrors : List String
deriving DecidableEq, Repr

/-- Result of `install_repo`: the error tuple returned as a value, the
errors list from the final `update_dynamic_plugins`, or a raised exception. -/
inductive InstallResult where
  | errTuple (msg : String)
  | scanResult (errors : List String)
  | raised (msg : String)
deriving DecidableEq, Repr

/-- The error tuple of lines 393-395. -/
def gitMissingMsg : String :=
  "git command not found: You need to have git installed on your system to be able to install git based plugins."

/-- Modelled from the spec: `human_name_for_git_url` lives in
`errbot/utils.py`, not under `src/`.  The spec says a human-readable local
name is derived from the URL: the last path segment with a `.git` suffix
stripped. -/
def human_name_for_git_url (url : String) : String :=
  let base := ((splitChar '/' url.data).getLast?).getD url.data
  String.mk (if endsWithChars base ".git".data then base.take (base.length - 4) else base)

/-- Method `install_repo` (lines 388-410).  The archive branch (lines 397-400)
refers to `TarFile`, `urlopen` and `args`, none of which is bound in the
module (`tarfile`/`urllib` are never imported and `args` is not a local),
so reaching it raises `NameError` before any effect. -/
def install_repo (env : InstallEnv) (repo0 : String) (st : MgrState) : InstallResult × MgrState :=
  let repo := (lookupAssoc env.knownRepos repo0).getD repo0
  match env.gitPath with
  | none => (InstallResult.errTuple gitMissingMsg, st)
  | some _ =>
    if strEndsWith repo "tar.gz" then
      (InstallResult.raised "NameError: name TarFile is not defined", st)
    else
      let human_name := human_name_for_git_url repo
      if env.cloneExit ≠ 0 then
        (InstallResult.errTuple ("Could not load this plugin : \n" ++ env.cloneStdout ++ "\n---\n" ++ env.cloneStderr), st)
      else
        (InstallResult.scanResult env.scanErrors, add_plugin_repo st human_name repo)

/-- Does an `ActResult` correspond to a raised `IncompatiblePluginException`? -/
def raisesIncompatible : ActResult → Bool
  | ActResult.exc (Exc.incompatiblePlugin _) => true
  | _ => false

/-! Concrete fixtures used by witnesses and counterexamples. -/

/-- A plugin object whose every hook succeeds and which declares nothing. -/
def quietObj : PluginObject :=
  { minErrVersion := none, maxErrVersion := none, configurationTemplate := none,
    config := none, checkConfigurationResult := none, configureResult := none,
    activateResult := none, routeResult := none, deactivateResult := none }

/-- A manager state holding exactly the given plugins and empty stores. -/
def mkState (plugins : List PluginItem) : MgrState :=
  { plugins := plugins, templatePaths := [], routed := [], repos := [],
    configs := [], blPlugins := [] }

/-- A plugin declaring `[Python] Version=2`. -/
def py2OnlyItem : PluginItem :=
  { name := "Echo", path := "/plugins/echo", pythonVersion := some "2",
    obj := quietObj, activated := false }

/-- A plugin declaring the out-of-enum `[Python] Version=4`. -/
def py4Item : PluginItem :=
  { name := "Echo", path := "/plugins/echo", pythonVersion := some "4",
    obj := quietObj, activated := false }

/-- A compatible plugin whose host `activate` hook raises. -/
def failingActivateItem : PluginItem :=
  { name := "Echo", path := "/plugins/echo", pythonVersion := some "2+",
    obj := { quietObj with activateResult := some "boom" }, activated := false }

/-- A compatible plugin whose `configure` hook raises, with a stored config. -/
def failingConfigureItem : PluginItem :=
  { name := "Echo", path := "/plugins/echo", pythonVersion := some "2+",
    obj := { quietObj with configureResult := some "bad conf", config := some "oldcfg" },
    activated := false }

/-- A plugin declaring `min_err_version = 2.0.0`. -/
def minBoundItem : PluginItem :=
  { name := "Echo", path := "/plugins/echo", pythonVersion := some "2+",
    obj := { quietObj with minErrVersion := some "2.0.0" }, activated := false }

/-- A plugin declaring `max_err_version = 0.9`. -/
def maxBoundItem : PluginItem :=
  { name := "Echo", path := "/plugins/echo", pythonVersion := some "2+",
    obj := { quietObj with maxErrVersion := some "0.9" }, activated := false }

/-- An install environment with git present and a succeeding clone. -/
def envGitOk : InstallEnv :=
  { knownRepos := [], gitPath := some "/usr/bin/git", cloneExit := 0,
    cloneStdout := "", cloneStderr := "", scanErrors := [] }

/-- A state whose repository registry already holds the name `foo`. -/
def stWithFooRepo : MgrState :=
  { mkState [] with repos := [("foo", "http://old/foo.git")] }

/-- A state whose blacklist already holds the name `alpha`. -/
def stWithAlphaBl : MgrState :=
  { mkState [] with blPlugins := ["alpha"] }

/-- An install environment with git absent from PATH. -/
def envNoGit : InstallEnv :=
  { envGitOk with gitPath := none }

/-- A state holding an activated plugin named `Echo`. -/
def activeEchoState : MgrState :=
  mkState [{ py2OnlyItem with activated := true }]

/-! Shared lemmas about the registry helpers. -/

theorem getPluginByName_updatePlugin (l : List PluginItem) (n : String)
    (f : PluginItem → PluginItem) (hf : ∀ p, (f p).name = p.name) :
    getPluginByName (updatePlugin l n f) n = (getPluginByName l n).map f := by
  induction l with
  | nil => rfl
  | cons p t ih =>
    simp only [getPluginByName, updatePlugin, List.map_cons] at ih ⊢
    by_cases h : p.name = n
    · rw [if_pos (by simp [h]), List.find?_cons_of_pos _ (by simp [hf, h]),
        List.find?_cons_of_pos _ (by simp [h])]
      rfl
    · rw [if_neg (by simp [h]), List.find?_cons_of_neg _ (by simp [h]),
        List.find?_cons_of_neg _ (by simp [h])]
      exact ih

theorem remove_add_templates (tp : List String) (p : String) (h : p ∉ tp) :
    remove_plugin_templates_path (add_plugin_templates_path tp p) p = tp := by
  simp only [add_plugin_templates_path, remove_plugin_templates_path, if_neg h]
  rw [List.filter_append]
  have h1 : tp.filter (fun q => q ≠ p) = tp := by
    rw [List.filter_eq_self]
    intro a ha
    simp only [ne_eq, decide_eq_true_eq]
    exact fun hap => h (hap ▸ ha)
  have h2 : [p].filter (fun q => q ≠ p) = [] := by simp
  rw [h1, h2, List.append_nil]

theorem lookupAssoc_setAssoc {α : Type} (l : List (String × α)) (k : String) (v : α) :
    lookupAssoc (setAssoc l k v) k = some v := by
  induction l with
  | nil => simp [setAssoc, lookupAssoc]
  | cons kv t ih =>
    by_cases hk : kv.fst = k
    · simp [setAssoc, lookupAssoc, hk]
    · simp only [setAssoc, if_neg (by simpa using hk)]
      simpa [lookupAssoc, List.find?_cons, hk] using ih

/-! Claim theorems. -/

/-- C3 counterexample: a plugin declaring `[Python] Version=2` activated
under Python 3 makes `activate_plugin_with_version_check` return `None`;
no `IncompatiblePluginException` is raised, contrary to the claim. -/
theorem interpreter_mismatch_not_raised_cex :
    (activate_plugin_with_version_check true "9.9.9" "Echo" none (mkState [py2OnlyItem])).1
        = ActResult.retNone ∧
      raisesIncompatible
        (activate_plugin_with_version_check true "9.9.9" "Echo" none (mkState [py2OnlyItem])).1
        = false :=
  ⟨rfl, rfl⟩

/-- C3 (amended): when the declared interpreter constraint excludes the
running interpreter major version (`"2"` under Python 3 or `"3"` under
Python 2), `activate_plugin_with_version_check` logs an error and returns
`None` without raising and without mutating any state. -/
theorem interpreter_mismatch_returns_none (py3 : Bool) (hostVersion name : String)
    (config : Option Config) (st : MgrState) (item : PluginItem)
    (hfind : getPluginByName st.plugins name = some item)
    (hexcl : (item.pythonVersion.getD "2" = "2" ∧ py3 = true) ∨
             (item.pythonVersion.getD "2" = "3" ∧ py3 = false)) :
    activate_plugin_with_version_check py3 hostVersion name config st
      = (ActResult.retNone, st) := by
  rcases hexcl with ⟨hv, hp⟩ | ⟨hv, hp⟩ <;> subst hp <;>
    simp [activate_plugin_with_version_check, hfind, pythonGate, hv]

/-- Witness for the amended C3 theorem at a concrete plugin and state. -/
theorem interpreter_mismatch_returns_none_wit :
    activate_plugin_with_version_check true "9.9.9" "Echo" none (mkState [py2OnlyItem])
      = (ActResult.retNone, mkState [py2OnlyItem]) :=
  interpreter_mismatch_returns_none true "9.9.9" "Echo" none (mkState [py2OnlyItem])
    py2OnlyItem rfl (Or.inl ⟨rfl, rfl⟩)

/-- C10: a plugin whose descriptor declares a `[Python] Version` outside
the set 2, 2+, 3 makes `activate_plugin_with_version_check` return `None`
without raising and without mutating any manager state. -/
theorem invalid_python_version_returns_none (py3 : Bool) (hostVersion name : String)
    (config : Option Config) (st : MgrState) (item : PluginItem) (pv : String)
    (hfind : getPluginByName st.plugins name = some item)
    (hpv : item.pythonVersion = some pv)
    (h2 : pv ≠ "2") (h2p : pv ≠ "2+") (h3 : pv ≠ "3") :
    activate_plugin_with_version_check py3 hostVersion name config st
      = (ActResult.retNone, st) := by
  simp [activate_plugin_with_version_check, hfind, pythonGate, hpv, h2, h2p, h3]

/-- Witness for C10 at a concrete plugin declaring `Version=4`. -/
theorem invalid_python_version_returns_none_wit :
    activate_plugin_with_version_check true "9.9.9" "Echo" none (mkState [py4Item])
      = (ActResult.retNone, mkState [py4Item]) :=
  invalid_python_version_returns_none true "9.9.9" "Echo" none (mkState [py4Item])
    py4Item "4" rfl rfl (by decide) (by decide) (by decide)

/-- C8: activating a name already in the active list returns the fixed
status string immediately with the state unchanged; the result does not
depend on the interpreter flag, the host version, or any hook oracle, so
the gate sequence cannot have run. -/
theorem already_active_is_noop (py3 : Bool) (hostVersion : String)
    (callbackConnect : Option String) (name : String) (st : MgrState)
    (h : name ∈ get_all_active_plugin_names st) :
    activate_plugin py3 hostVersion callbackConnect name st
      = (ActivateStr.ret "Plugin already in active list", st) := by
  simp [activate_plugin, h]

/-- Witness for C8 at a state holding an activated plugin. -/
theorem already_active_is_noop_wit :
    activate_plugin true "9.9.9" none "Echo" activeEchoState
      = (ActivateStr.ret "Plugin already in active list", activeEchoState) :=
  already_active_is_noop true "9.9.9" none "Echo" activeEchoState (by decide)

/-- C6: with git absent from PATH, `install_repo` returns (not raises) the
error tuple naming the missing git tool, and the whole state, the
repository registry included, is unchanged. -/
theorem git_missing_returns_error (env : InstallEnv) (repo : String) (st : MgrState)
    (h : env.gitPath = none) :
    install_repo env repo st = (InstallResult.errTuple gitMissingMsg, st) := by
  simp [install_repo, h]

/-- Witness for C6 at a concrete environment without git. -/
theorem git_missing_returns_error_wit :
    install_repo envNoGit "https://example/foo.git" (mkState [])
      = (InstallResult.errTuple gitMissingMsg, mkState []) :=
  git_missing_returns_error envNoGit "https://example/foo.git" (mkState []) rfl

/-- C9: the archive branch of `install_repo` is reached for a `tar.gz`
reference with git present, but raises `NameError` (its `TarFile`,
`urlopen` and `args` names are unbound in the module) instead of
extracting, registering and re-scanning; no state changes. -/
theorem targz_branch_raises_nameerror :
    install_repo envGitOk "https://example.com/foo.tar.gz" (mkState [])
      = (InstallResult.raised "NameError: name TarFile is not defined", mkState []) := by
  decide

/-- C7 counterexample: with `alpha` already blacklisted, `blacklist_plugin`
followed by `unblacklist_plugin` removes `alpha`, so the round-trip does
not restore membership for every starting state. -/
theorem blacklist_roundtrip_cex :
    stWithAlphaBl.blPlugins = ["alpha"] ∧
      (unblacklist_plugin (blacklist_plugin stWithAlphaBl "alpha").2 "alpha").2.blPlugins = [] := by
  decide

/-- C7 (amended): for a name not currently blacklisted, blacklist followed
by unblacklist restores the state exactly; blacklisting an already
blacklisted name and unblacklisting a non-blacklisted name each return the
"already" / "not blacklisted" status with no mutation. -/
theorem blacklist_unblacklist_roundtrip (st : MgrState) (name m k : String)
    (h : name ∉ st.blPlugins) (hm : m ∈ st.blPlugins) (hk : k ∉ st.blPlugins) :
    (unblacklist_plugin (blacklist_plugin st name).2 name).2 = st ∧
    blacklist_plugin st m = ("Plugin " ++ m ++ " is already blacklisted", st) ∧
    unblacklist_plugin st k = ("Plugin " ++ k ++ " is not blacklisted", st) := by
  refine ⟨?_, ?_, ?_⟩
  · have hbl : is_plugin_blacklisted st name = false := by
      simp [is_plugin_blacklisted, h]
    have hmem : is_plugin_blacklisted { st with blPlugins := st.blPlugins ++ [name] } name = true := by
      simp [is_plugin_blacklisted]
    have herase : (st.blPlugins ++ [name]).erase name = st.blPlugins := by
      rw [List.erase_append_right _ h, List.erase_cons_head, List.append_nil]
    simp [blacklist_plugin, unblacklist_plugin, hbl, hmem, herase]
  · simp [blacklist_plugin, is_plugin_blacklisted, hm]
  · simp [unblacklist_plugin, is_plugin_blacklisted, hk]

/-- Witness for the amended C7 theorem at a concrete blacklist. -/
theorem blacklist_unblacklist_roundtrip_wit :
    (unblacklist_plugin (blacklist_plugin stWithAlphaBl "beta").2 "beta").2 = stWithAlphaBl ∧
    blacklist_plugin stWithAlphaBl "alpha"
      = ("Plugin " ++ "alpha" ++ " is already blacklisted", stWithAlphaBl) ∧
    unblacklist_plugin stWithAlphaBl "gamma"
      = ("Plugin " ++ "gamma" ++ " is not blacklisted", stWithAlphaBl) :=
  blacklist_unblacklist_roundtrip stWithAlphaBl "beta" "alpha" "gamma"
    (by decide) (by decide) (by decide)

/-- C5 counterexample: installing a repository whose derived name `foo` is
already registered is not rejected: the clone runs, the install returns the
re-scan result, and the registry entry for `foo` is overwritten with the
new URL. -/
theorem duplicate_install_overwrites_cex :
    lookupAssoc stWithFooRepo.repos "foo" = some "http://old/foo.git" ∧
    (install_repo envGitOk "https://example/foo.git" stWithFooRepo).1
      = InstallResult.scanResult [] ∧
    (install_repo envGitOk "https://example/foo.git" stWithFooRepo).2.repos
      = [("foo", "https://example/foo.git")] := by
  decide

/-- C5 (amended): a duplicate install attempt is not rejected; with git
present, a non-archive reference and a succeeding clone, `install_repo`
overwrites the existing registry entry for the derived name with the new
URL and returns the re-scan result. -/
theorem duplicate_install_overwrites (env : InstallEnv) (repo g old : String) (st : MgrState)
    (hk : lookupAssoc env.knownRepos repo = none)
    (hg : env.gitPath = some g)
    (htar : strEndsWith repo "tar.gz" = false)
    (hclone : env.cloneExit = 0)
    (_hdup : lookupAssoc st.repos (human_name_for_git_url repo) = some old) :
    install_repo env repo st
      = (InstallResult.scanResult env.scanErrors,
         add_plugin_repo st (human_name_for_git_url repo) repo) ∧
    lookupAssoc (install_repo env repo st).2.repos (human_name_for_git_url repo) = some repo := by
  have h1 : install_repo env repo st
      = (InstallResult.scanResult env.scanErrors,
         add_plugin_repo st (human_name_for_git_url repo) repo) := by
    simp [install_repo, hk, hg, htar, hclone]
  refine ⟨h1, ?_⟩
  rw [h1]
  exact lookupAssoc_setAssoc st.repos (human_name_for_git_url repo) repo

/-- Witness for the amended C5 theorem at a concrete duplicate name. -/
theorem duplicate_install_overwrites_wit :
    install_repo envGitOk "https://example/foo.git" stWithFooRepo
      = (InstallResult.scanResult envGitOk.scanErrors,
         add_plugin_repo stWithFooRepo (human_name_for_git_url "https://example/foo.git")
           "https://example/foo.git") ∧
    lookupAssoc (install_repo envGitOk "https://example/foo.git" stWithFooRepo).2.repos
        (human_name_for_git_url "https://example/foo.git")
      = some "https://example/foo.git" :=
  duplicate_install_overwrites envGitOk "https://example/foo.git" "/usr/bin/git"
    "http://old/foo.git" stWithFooRepo (by decide) rfl (by decide) rfl (by decide)

/-- C4: declared min/max host versions are compared as integer arrays
(zero-padded, see `verLt`); a min bound above the current version alone
suffices to raise `IncompatiblePluginException` with the minimal-version
message, and a max bound below the current version (with the min check
passing, as the source checks min first) suffices to raise it with the
maximal-version message, so each violated bound is named distinctly. -/
theorem version_bounds_reject (py3 : Bool) (hostVersion name : String)
    (config : Option Config) (st : MgrState) (item : PluginItem) (v w : String)
    (hfind : getPluginByName st.plugins name = some item)
    (hpy : pythonGate py3 (item.pythonVersion.getD "2") = none) :
    (item.obj.minErrVersion = some v → v ≠ "" →
      verGt (version2array v) (version2array hostVersion) = true →
      activate_plugin_with_version_check py3 hostVersion name config st
        = (ActResult.exc (Exc.incompatiblePlugin (minVersionMsg name v hostVersion)), st)) ∧
    (item.obj.maxErrVersion = some w → w ≠ "" →
      verLt (version2array w) (version2array hostVersion) = true →
      (truthy item.obj.minErrVersion &&
        verGt (version2array (item.obj.minErrVersion.getD "")) (version2array hostVersion)) = false →
      activate_plugin_with_version_check py3 hostVersion name config st
        = (ActResult.exc (Exc.incompatiblePlugin (maxVersionMsg name w hostVersion)), st)) := by
  constructor
  · intro hmin hne hgt
    have hv : versionGate name hostVersion item.obj
        = some (minVersionMsg name v hostVersion) := by
      simp [versionGate, hmin, truthy, hne, hgt]
    simp [activate_plugin_with_version_check, hfind, hpy, hv]
  · intro hmax hne hlt hminpass
    have hv : versionGate name hostVersion item.obj
        = some (maxVersionMsg name w hostVersion) := by
      simp only [versionGate]
      rw [hminpass]
      simp [hmax, truthy, hne, hlt]
    simp [activate_plugin_with_version_check, hfind, hpy, hv]

/-- Witness for C4: `min_err_version = 2.0.0` rejects under host version
`1.0.0` with the minimal-version message, and `max_err_version = 0.9`
(zero-padded to `[0,9,0]`) rejects under `1.0.0` with the maximal-version
message. -/
theorem version_bounds_reject_wit :
    activate_plugin_with_version_check true "1.0.0" "Echo" none (mkState [minBoundItem])
      = (ActResult.exc (Exc.incompatiblePlugin (minVersionMsg "Echo" "2.0.0" "1.0.0")),
         mkState [minBoundItem]) ∧
    activate_plugin_with_version_check true "1.0.0" "Echo" none (mkState [maxBoundItem])
      = (ActResult.exc (Exc.incompatiblePlugin (maxVersionMsg "Echo" "0.9" "1.0.0")),
         mkState [maxBoundItem]) :=
  ⟨(version_bounds_reject true "1.0.0" "Echo" none (mkState [minBoundItem]) minBoundItem
      "2.0.0" "0.9" rfl (by decide)).1 rfl (by decide) (by decide),
   (version_bounds_reject true "1.0.0" "Echo" none (mkState [maxBoundItem]) maxBoundItem
      "2.0.0" "0.9" rfl (by decide)).2 rfl (by decide) (by decide) (by decide)⟩

/-- C2: when configuration checking or the configure hook raises during
activation (after the find and compatibility gates), the in-memory
configuration of the plugin is cleared to the no-configuration sentinel, a
`PluginConfigurationException` carrying the underlying message is raised,
and the lifecycle state (the `activated` flag) is untouched, as are the
template paths, router registrations and all persisted stores. -/
theorem config_failure_clears_config (py3 : Bool) (hostVersion name : String)
    (config : Option Config) (st : MgrState) (item : PluginItem) (msg : String)
    (hfind : getPluginByName st.plugins name = some item)
    (hpy : pythonGate py3 (item.pythonVersion.getD "2") = none)
    (hver : versionGate name hostVersion item.obj = none)
    (hcfg : configStep item.obj config = Except.error msg) :
    (activate_plugin_with_version_check py3 hostVersion name config st).1
      = ActResult.exc (Exc.pluginConfiguration msg) ∧
    getPluginByName (activate_plugin_with_version_check py3 hostVersion name config st).2.plugins name
      = some { item with obj := { item.obj with config := none } } ∧
    (activate_plugin_with_version_check py3 hostVersion name config st).2.templatePaths
      = st.templatePaths ∧
    (activate_plugin_with_version_check py3 hostVersion name config st).2.routed = st.routed ∧
    (activate_plugin_with_version_check py3 hostVersion name config st).2.repos = st.repos ∧
    (activate_plugin_with_version_check py3 hostVersion name config st).2.configs = st.configs ∧
    (activate_plugin_with_version_check py3 hostVersion name config st).2.blPlugins = st.blPlugins := by
  have hact : activate_plugin_with_version_check py3 hostVersion name config st
      = (ActResult.exc (Exc.pluginConfiguration msg), clearConfig st name) := by
    simp [activate_plugin_with_version_check, hfind, hpy, hver, hcfg]
  rw [hact]
  refine ⟨rfl, ?_, rfl, rfl, rfl, rfl, rfl⟩
  simp only [clearConfig]
  rw [getPluginByName_updatePlugin st.plugins name
      (fun p => { p with obj := { p.obj with config := none } }) (fun p => rfl), hfind]
  rfl

/-- Witness for C2 at a concrete plugin whose configure hook raises. -/
theorem config_failure_clears_config_wit :
    (activate_plugin_with_version_check true "9.9.9" "Echo" none (mkState [failingConfigureItem])).1
      = ActResult.exc (Exc.pluginConfiguration "bad conf") ∧
    getPluginByName
        (activate_plugin_with_version_check true "9.9.9" "Echo" none
          (mkState [failingConfigureItem])).2.plugins "Echo"
      = some { failingConfigureItem with
                obj := { failingConfigureItem.obj with config := none } } ∧
    (activate_plugin_with_version_check true "9.9.9" "Echo" none
        (mkState [failingConfigureItem])).2.templatePaths
      = (mkState [failingConfigureItem]).templatePaths ∧
    (activate_plugin_with_version_check true "9.9.9" "Echo" none
        (mkState [failingConfigureItem])).2.routed = (mkState [failingConfigureItem]).routed ∧
    (activate_plugin_with_version_check true "9.9.9" "Echo" none
        (mkState [failingConfigureItem])).2.repos = (mkState [failingConfigureItem]).repos ∧
    (activate_plugin_with_version_check true "9.9.9" "Echo" none
        (mkState [failingConfigureItem])).2.configs = (mkState [failingConfigureItem]).configs ∧
    (activate_plugin_with_version_check true "9.9.9" "Echo" none
        (mkState [failingConfigureItem])).2.blPlugins = (mkState [failingConfigureItem]).blPlugins :=
  config_failure_clears_config true "9.9.9" "Echo" none (mkState [failingConfigureItem])
    failingConfigureItem "bad conf" rfl rfl rfl rfl

/-- C1: when host activation (`activatePluginByName`) or host registration
(`route`) raises after the configuration step succeeded, the attempt is
rolled back before the original error is re-raised: the `activated` flag is
reset, the template path registered for the plugin is unregistered (the
template-path set is exactly restored), the host deactivation hook runs
(hypothesised to succeed, hence the original message re-raised), and the
router registrations and persisted stores are untouched. -/
theorem activation_failure_rolls_back (py3 : Bool) (hostVersion name : String)
    (config : Option Config) (st : MgrState) (item : PluginItem) (msg : String)
    (hfind : getPluginByName st.plugins name = some item)
    (hpy : pythonGate py3 (item.pythonVersion.getD "2") = none)
    (hver : versionGate name hostVersion item.obj = none)
    (hcfg : configStep item.obj config = Except.ok ())
    (hfail : item.obj.activateResult = some msg ∨
      (item.obj.activateResult = none ∧ item.obj.routeResult = some msg))
    (hdeact : item.obj.deactivateResult = none)
    (hpath : item.path ∉ st.templatePaths) :
    (activate_plugin_with_version_check py3 hostVersion name config st).1
      = ActResult.exc (Exc.other msg) ∧
    (activate_plugin_with_version_check py3 hostVersion name config st).2.templatePaths
      = st.templatePaths ∧
    (activate_plugin_with_version_check py3 hostVersion name config st).2.routed = st.routed ∧
    getPluginByName
        (activate_plugin_with_version_check py3 hostVersion name config st).2.plugins name
      = some { item with activated := false } ∧
    (activate_plugin_with_version_check py3 hostVersion name config st).2.repos = st.repos ∧
    (activate_plugin_with_version_check py3 hostVersion name config st).2.configs = st.configs ∧
    (activate_plugin_with_version_check py3 hostVersion name config st).2.blPlugins = st.blPlugins := by
  have hact : activate_plugin_with_version_check py3 hostVersion name config st
      = activationRollback name item.path msg item.obj.deactivateResult
          (setActivated
            { st with templatePaths := add_plugin_templates_path st.templatePaths item.path }
            name true) := by
    rcases hfail with hA | ⟨hA, hR⟩
    · simp [activate_plugin_with_version_check, hfind, hpy, hver, hcfg, hA]
    · simp [activate_plugin_with_version_check, hfind, hpy, hver, hcfg, hA, hR]
  rw [hact, hdeact]
  refine ⟨rfl, ?_, rfl, ?_, rfl, rfl, rfl⟩
  · exact remove_add_templates st.templatePaths item.path hpath
  · simp only [activationRollback, setActivated]
    rw [getPluginByName_updatePlugin _ name
        (fun p => { p with activated := false }) (fun p => rfl),
      getPluginByName_updatePlugin _ name
        (fun p => { p with activated := false }) (fun p => rfl),
      getPluginByName_updatePlugin st.plugins name
        (fun p => { p with activated := true }) (fun p => rfl),
      hfind]
    rfl

/-- Witness for C1 at a concrete plugin whose host activate hook raises. -/
theorem activation_failure_rolls_back_wit :
    (activate_plugin_with_version_check true "9.9.9" "Echo" none (mkState [failingActivateItem])).1
      = ActResult.exc (Exc.other "boom") ∧
    (activate_plugin_with_version_check true "9.9.9" "Echo" none
        (mkState [failingActivateItem])).2.templatePaths
      = (mkState [failingActivateItem]).templatePaths ∧
    (activate_plugin_with_version_check true "9.9.9" "Echo" none
        (mkState [failingActivateItem])).2.routed = (mkState [failingActivateItem]).routed ∧
    getPluginByName
        (activate_plugin_with_version_check true "9.9.9" "Echo" none
          (mkState [failingActivateItem])).2.plugins "Echo"
      = some { failingActivateItem with activated := false } ∧
    (activate_plugin_with_version_check true "9.9.9" "Echo" none
        (mkState [failingActivateItem])).2.repos = (mkState [failingActivateItem]).repos ∧
    (activate_plugin_with_version_check true "9.9.9" "Echo" none
        (mkState [failingActivateItem])).2.configs = (mkState [failingActivateItem]).configs ∧
    (activate_plugin_with_version_check true "9.9.9" "Echo" none
        (mkState [failingActivateItem])).2.blPlugins = (mkState [failingActivateItem]).blPlugins :=
  activation_failure_rolls_back true "9.9.9" "Echo" none (mkState [failingActivateItem])
    failingActivateItem "boom" rfl rfl rfl rfl (Or.inl rfl) rfl (by decide)

end PluginMgr
